import Mathlib

/-
  Verification of the price-monitor / alert subsystem of the repository
  (sample-project-1-price-monitor-alerts, plus the threshold-configuration
  handler of sample-project-2-gas-fee-monitor).

  Python floats are modelled as rationals (ℚ); timestamps are opaque strings
  passed as parameters (the code computes datetime.utcnow() at the
  corresponding points); the per-agent keyed storage is modelled as explicit
  state passed through the handler functions.
-/

namespace PriceMonitor

/-- Python slice l[-n:]: the last n elements for 1 ≤ n < len, the whole list
for n ≥ len, and (Python quirk, since -0 = 0) the whole list for n = 0. -/
def pyLastSlice (n : Nat) (l : List α) : List α :=
  if n = 0 then l else l.drop (l.length - n)

/-- np.mean over rationals.  The empty list gives 0 here (numpy would give
nan); every use below is guarded so the list is nonempty. -/
def mean (l : List ℚ) : ℚ := l.sum / (l.length : ℚ)

/-- np.diff: consecutive differences. -/
def diffs : List ℚ → List ℚ
  | a :: b :: rest => (b - a) :: diffs (b :: rest)
  | _ => []

/-- Average gain of calculate_rsi: np.mean(np.clip(np.diff(prices), 0, None)[-window:]). -/
def rsiAvgGain (prices : List ℚ) (window : Nat) : ℚ :=
  mean (pyLastSlice window ((diffs prices).map (fun d => max d 0)))

/-- Average loss of calculate_rsi: np.mean(np.clip(-np.diff(prices), 0, None)[-window:]). -/
def rsiAvgLoss (prices : List ℚ) (window : Nat) : ℚ :=
  mean (pyLastSlice window ((diffs prices).map (fun d => max (-d) 0)))

/-- calculate_rsi from analysis_agent.py: neutral 50.0 when there are fewer
than window+1 prices; 100.0 when the average loss is zero; otherwise
100 - 100/(1+rs) with rs = avg_gain / avg_loss. -/
def calculate_rsi (prices : List ℚ) (window : Nat := 14) : ℚ :=
  if prices.length < window + 1 then 50
  else if rsiAvgLoss prices window = 0 then 100
  else 100 - 100 / (1 + rsiAvgGain prices window / rsiAvgLoss prices window)

/-- The recurrence of pandas ewm(span, adjust=False).mean() after the seed:
y_t = x_t * alpha + y_(t-1) * (1 - alpha). -/
def emaFrom (alpha prev : ℚ) : List ℚ → List ℚ
  | [] => []
  | x :: xs => (x * alpha + prev * (1 - alpha)) :: emaFrom alpha (x * alpha + prev * (1 - alpha)) xs

/-- pandas Series.ewm(span, adjust=False).mean(): seeded with the first
element, alpha = 2/(span+1). -/
def ewmMean (span : Nat) : List ℚ → List ℚ
  | [] => []
  | x :: xs => x :: emaFrom (2 / ((span : ℚ) + 1)) x xs

/-- calculate_macd from analysis_agent.py: (0.0, 0.0) when there are fewer
than slow_window prices; otherwise the last value of the macd series
(fast EMA minus slow EMA) and of its signal-window EMA. -/
def calculate_macd (prices : List ℚ) (fast_window : Nat := 12) (slow_window : Nat := 26)
    (signal_window : Nat := 9) : ℚ × ℚ :=
  if prices.length < slow_window then (0, 0)
  else
    let emaFast := ewmMean fast_window prices
    let emaSlow := ewmMean slow_window prices
    let macdSeries := List.zipWith (fun a b => a - b) emaFast emaSlow
    let signalSeries := ewmMean signal_window macdSeries
    (macdSeries.getLastD 0, signalSeries.getLastD 0)

/-- AlertType from protocols/alerts.py. -/
inductive AlertType where
  | PRICE_ABOVE
  | PRICE_BELOW
  | PERCENT_CHANGE
  | RSI_OVERBOUGHT
  | RSI_OVERSOLD
  | MACD_CROSSOVER
  | MACD_CROSSUNDER
  | TREND_REVERSAL
  | SUPPORT_BREAKOUT
  | RESISTANCE_BREAKOUT
  | VOLUME_SPIKE
  deriving DecidableEq

/-- TrendDirection from protocols/analysis.py. -/
inductive TrendDirection where
  | UP
  | DOWN
  | SIDEWAYS
  deriving DecidableEq

/-- The .value string of a TrendDirection member. -/
def trendValue : TrendDirection → String
  | TrendDirection.UP => "up"
  | TrendDirection.DOWN => "down"
  | TrendDirection.SIDEWAYS => "sideways"

/-- SignalType from protocols/analysis.py. -/
inductive SignalType where
  | BUY
  | SELL
  | HOLD
  | NONE
  deriving DecidableEq

/-- SignalStrength from protocols/analysis.py. -/
inductive SignalStrength where
  | STRONG
  | MODERATE
  | WEAK
  deriving DecidableEq

/-- One entry of the per-symbol history kept by the analysis agent: the dict
appended in handle_price_update / handle_price_response. -/
structure PricePoint where
  price : ℚ
  timestamp : String
  volume_24h : Option ℚ
  percent_change_24h : Option ℚ
  deriving DecidableEq

/-- AnalysisResult from protocols/analysis.py (prediction and the
support/resistance fields are never consulted by the alert agent and are
omitted). -/
structure AnalysisResult where
  symbol : String
  current_price : ℚ
  timestamp : String
  moving_avg_short : Option ℚ
  moving_avg_long : Option ℚ
  rsi : Option ℚ
  macd : Option ℚ
  macd_signal : Option ℚ
  trend : TrendDirection
  signal : SignalType
  signal_strength : SignalStrength
  deriving DecidableEq

/-- AlertConfig from protocols/alerts.py.  additional_params is an open
string-keyed dict; the code only ever reads and writes the string-valued key
"previous_trend", so the dict is modelled as an association list of strings. -/
structure AlertConfig where
  alert_id : String
  symbol : String
  alert_type : AlertType
  threshold : ℚ
  active : Bool
  description : Option String
  additional_params : Option (List (String × String))
  deriving DecidableEq

/-- AlertConfig.create: factory with active defaulted to True and no
additional_params; the generated uuid4 is passed in explicitly. -/
def AlertConfig.create (alert_id symbol : String) (alert_type : AlertType)
    (threshold : ℚ) (description : Option String) : AlertConfig :=
  { alert_id := alert_id
    symbol := symbol
    alert_type := alert_type
    threshold := threshold
    active := true
    description := description
    additional_params := none }

/-- AlertNotification from protocols/alerts.py. -/
structure AlertNotification where
  alert_id : String
  symbol : String
  alert_type : AlertType
  triggered_value : ℚ
  threshold : ℚ
  message : String
  timestamp : String
  deriving DecidableEq

/-- Fixed-point rendering with d decimal digits, abstracting the Python
format specifier :.df (string rendering differences do not affect any claim;
here round half-up on the exact rational value). -/
def fmtFixed (d : Nat) (x : ℚ) : String :=
  let c : Int := round (x * (10 : ℚ) ^ d)
  let sign := if c < 0 then "-" else ""
  let n := c.natAbs
  let fracStr := toString (n % 10 ^ d)
  sign ++ toString (n / 10 ^ d) ++ "." ++
    String.mk (List.replicate (d - fracStr.length) '0') ++ fracStr

/-- Message template of the PRICE_ABOVE branch of check_price_alerts. -/
def priceAboveMessage (symbol : String) (threshold price : ℚ) : String :=
  symbol ++ " price is above $" ++ fmtFixed 2 threshold ++
    " (Current: $" ++ fmtFixed 2 price ++ ")"

/-- Message template of the PRICE_BELOW branch of check_price_alerts. -/
def priceBelowMessage (symbol : String) (threshold price : ℚ) : String :=
  symbol ++ " price is below $" ++ fmtFixed 2 threshold ++
    " (Current: $" ++ fmtFixed 2 price ++ ")"

/-- Message template of the RSI_OVERBOUGHT branch of check_indicator_alerts. -/
def rsiOverboughtMessage (symbol : String) (rsi threshold : ℚ) : String :=
  symbol ++ " RSI is overbought at " ++ fmtFixed 2 rsi ++
    " (Threshold: " ++ fmtFixed 2 threshold ++ ")"

/-- Message template of the RSI_OVERSOLD branch of check_indicator_alerts. -/
def rsiOversoldMessage (symbol : String) (rsi threshold : ℚ) : String :=
  symbol ++ " RSI is oversold at " ++ fmtFixed 2 rsi ++
    " (Threshold: " ++ fmtFixed 2 threshold ++ ")"

/-- Message template of the MACD_CROSSOVER branch of check_indicator_alerts. -/
def macdCrossoverMessage (symbol : String) (macd sig : ℚ) : String :=
  symbol ++ " MACD crossed above signal line (MACD: " ++ fmtFixed 4 macd ++
    ", Signal: " ++ fmtFixed 4 sig ++ ")"

/-- Message template of the MACD_CROSSUNDER branch of check_indicator_alerts. -/
def macdCrossunderMessage (symbol : String) (macd sig : ℚ) : String :=
  symbol ++ " MACD crossed below signal line (MACD: " ++ fmtFixed 4 macd ++
    ", Signal: " ++ fmtFixed 4 sig ++ ")"

/-- Message template of the TREND_REVERSAL branch of check_indicator_alerts. -/
def trendReversalMessage (symbol prev cur : String) : String :=
  symbol ++ " trend reversed from " ++ prev.toUpper ++ " to " ++ cur.toUpper

/-- Python dict lookup d.get(k) on the association-list model. -/
def assocGet (k : String) : List (String × String) → Option String
  | [] => none
  | (k₂, v) :: rest => if k₂ = k then some v else assocGet k rest

/-- Python dict assignment d[k] = v on the association-list model: replace
the value of an existing key in place, otherwise append the new key. -/
def assocSet (k v : String) : List (String × String) → List (String × String)
  | [] => [(k, v)]
  | (k₂, v₂) :: rest =>
      if k₂ = k then (k₂, v) :: rest else (k₂, v₂) :: assocSet k v rest

/-- additional_params.get("previous_trend") if additional_params else None
(an absent dict, like a missing key, yields None; an empty dict is falsy and
also yields None, which coincides with the missing-key lookup). -/
def previousTrendOf (r : AlertConfig) : Option String :=
  match r.additional_params with
  | none => none
  | some ps => assocGet "previous_trend" ps

/-- The in-place update of the TREND_REVERSAL branch: materialize an empty
dict if additional_params is falsy, then set "previous_trend". -/
def setPreviousTrend (r : AlertConfig) (v : String) : AlertConfig :=
  let ps :=
    match r.additional_params with
    | none => []
    | some ps => ps
  { r with additional_params := some (assocSet "previous_trend" v ps) }

/-- The loop body of check_price_alerts for one alert: skip on symbol
mismatch or inactive, then the PRICE_ABOVE / PRICE_BELOW elif chain with
strict comparisons. -/
def checkPriceRule (symbol : String) (price : ℚ) (ts : String) (r : AlertConfig) :
    Option AlertNotification :=
  if r.symbol ≠ symbol ∨ r.active = false then none
  else if r.alert_type = AlertType.PRICE_ABOVE ∧ price > r.threshold then
    some { alert_id := r.alert_id
           symbol := symbol
           alert_type := r.alert_type
           triggered_value := price
           threshold := r.threshold
           message := priceAboveMessage symbol r.threshold price
           timestamp := ts }
  else if r.alert_type = AlertType.PRICE_BELOW ∧ price < r.threshold then
    some { alert_id := r.alert_id
           symbol := symbol
           alert_type := r.alert_type
           triggered_value := price
           threshold := r.threshold
           message := priceBelowMessage symbol r.threshold price
           timestamp := ts }
  else none

/-- check_price_alerts from alert_agent.py: the triggered notifications, in
rule order. -/
def checkPriceAlerts (symbol : String) (price : ℚ) (ts : String)
    (alerts : List AlertConfig) : List AlertNotification :=
  alerts.filterMap (checkPriceRule symbol price ts)

/-- The loop body of check_indicator_alerts for one alert: the elif chain on
alert_type.  The Python conditions test the Optional float fields for
truthiness (both None and 0.0 are falsy), which the x ≠ 0 conjuncts mirror.
The TREND_REVERSAL branch returns the updated rule (the in-place
additional_params mutation); every other branch leaves the rule unchanged. -/
def checkIndicatorRule (a : AnalysisResult) (ts : String) (r : AlertConfig) :
    Option AlertNotification × AlertConfig :=
  if r.symbol ≠ a.symbol ∨ r.active = false then (none, r)
  else
    match r.alert_type with
    | AlertType.RSI_OVERBOUGHT =>
        match a.rsi with
        | some x =>
            if x ≠ 0 ∧ x > r.threshold then
              (some { alert_id := r.alert_id
                      symbol := a.symbol
                      alert_type := r.alert_type
                      triggered_value := x
                      threshold := r.threshold
                      message := rsiOverboughtMessage a.symbol x r.threshold
                      timestamp := ts }, r)
            else (none, r)
        | none => (none, r)
    | AlertType.RSI_OVERSOLD =>
        match a.rsi with
        | some x =>
            if x ≠ 0 ∧ x < r.threshold then
              (some { alert_id := r.alert_id
                      symbol := a.symbol
                      alert_type := r.alert_type
                      triggered_value := x
                      threshold := r.threshold
                      message := rsiOversoldMessage a.symbol x r.threshold
                      timestamp := ts }, r)
            else (none, r)
        | none => (none, r)
    | AlertType.MACD_CROSSOVER =>
        match a.macd, a.macd_signal with
        | some m, some s =>
            if m ≠ 0 ∧ s ≠ 0 ∧ m > s ∧ m > 0 then
              (some { alert_id := r.alert_id
                      symbol := a.symbol
                      alert_type := r.alert_type
                      triggered_value := m
                      threshold := s
                      message := macdCrossoverMessage a.symbol m s
                      timestamp := ts }, r)
            else (none, r)
        | _, _ => (none, r)
    | AlertType.MACD_CROSSUNDER =>
        match a.macd, a.macd_signal with
        | some m, some s =>
            if m ≠ 0 ∧ s ≠ 0 ∧ m < s ∧ m < 0 then
              (some { alert_id := r.alert_id
                      symbol := a.symbol
                      alert_type := r.alert_type
                      triggered_value := m
                      threshold := s
                      message := macdCrossunderMessage a.symbol m s
                      timestamp := ts }, r)
            else (none, r)
        | _, _ => (none, r)
    | AlertType.TREND_REVERSAL =>
        match previousTrendOf r with
        | some p =>
            if p ≠ "" ∧ p ≠ trendValue a.trend then
              (some { alert_id := r.alert_id
                      symbol := a.symbol
                      alert_type := r.alert_type
                      triggered_value := 0
                      threshold := 0
                      message := trendReversalMessage a.symbol p (trendValue a.trend)
                      timestamp := ts },
               setPreviousTrend r (trendValue a.trend))
            else (none, r)
        | none => (none, r)
    | _ => (none, r)

/-- check_indicator_alerts from alert_agent.py: the triggered notifications
in rule order, together with the rule list after the in-place
previous_trend updates (each loop iteration touches only its own element,
so the sequential in-place mutation is a pointwise map). -/
def checkIndicatorAlerts (a : AnalysisResult) (ts : String)
    (alerts : List AlertConfig) : List AlertNotification × List AlertConfig :=
  (alerts.filterMap (fun r => (checkIndicatorRule a ts r).1),
   alerts.map (fun r => (checkIndicatorRule a ts r).2))

/-- One element of the pending_alerts storage list of the alert agent. -/
structure PendingEntry where
  alert : AlertNotification
  attempts : Nat
  last_attempt : String
  deriving DecidableEq

/-- The per-entry body of the send_pending_alerts loop.  sendOk is the
delivery oracle (whether ctx.send to that address raises): delivery of the
entry succeeds only if the send to every subscribed user succeeds, in which
case the entry is removed (returns none).  Otherwise attempts is
incremented, last_attempt is set to now, and the entry is kept only while
the incremented attempts stays below 10. -/
def flushEntry (sendOk : String → AlertNotification → Bool)
    (subscribers : List String) (now : String) (e : PendingEntry) :
    Option PendingEntry :=
  if subscribers.all (fun u => sendOk u e.alert) then none
  else if e.attempts + 1 < 10 then
    some { e with attempts := e.attempts + 1, last_attempt := now }
  else none

/-- send_pending_alerts from alert_agent.py, as the transformation of the
pending_alerts list: early return (state unchanged) when the pending list or
the subscriber list is empty, otherwise each entry is delivered, retried or
dropped per flushEntry. -/
def sendPendingAlerts (sendOk : String → AlertNotification → Bool)
    (subscribers : List String) (now : String) (pending : List PendingEntry) :
    List PendingEntry :=
  if pending.isEmpty then pending
  else if subscribers.isEmpty then pending
  else pending.filterMap (flushEntry sendOk subscribers now)

/-- The storage of the alert agent touched by handle_analysis_result: the
alerts list, the triggered_alerts log, the pending_alerts queue and the
subscribed_users list. -/
structure AlertAgentState where
  alerts : List AlertConfig
  triggered : List AlertNotification
  pending : List PendingEntry
  subscribers : List String
  deriving DecidableEq

/-- handle_analysis_result from alert_agent.py: run the price and indicator
checks against the stored rules; when anything triggered, append to the
triggered log (kept to its last 100), enqueue fresh pending entries with
attempts = 0 and immediately flush; finally (unconditionally) write the
possibly-updated rule list back to storage. -/
def handleAnalysisResult (sendOk : String → AlertNotification → Bool)
    (now : String) (a : AnalysisResult) (st : AlertAgentState) : AlertAgentState :=
  let cfgs := st.alerts
  let priceNotifs := checkPriceAlerts a.symbol a.current_price now cfgs
  let indResult := checkIndicatorAlerts a now cfgs
  let trig := priceNotifs ++ indResult.1
  let st₂ :=
    if trig.isEmpty then st
    else
      let allTrig := st.triggered ++ trig
      let allTrig := if allTrig.length > 100 then pyLastSlice 100 allTrig else allTrig
      let pend := st.pending ++ trig.map (fun n => ⟨n, 0, now⟩)
      let pend := sendPendingAlerts sendOk st.subscribers now pend
      { st with triggered := allTrig, pending := pend }
  { st₂ with alerts := indResult.2 }

/-- The fields of ConfigureAlertResponse from protocols/alerts.py. -/
structure ConfigureReply where
  success : Bool
  alert_id : Option String
  message : Option String
  deriving DecidableEq

/-- Replace the first rule whose alert_id matches (the index-search-and-
assign of handle_configure_alert). -/
def replaceFirstById (cfg : AlertConfig) : List AlertConfig → List AlertConfig
  | [] => []
  | r :: rest =>
      if r.alert_id = cfg.alert_id then cfg :: rest
      else r :: replaceFirstById cfg rest

/-- handle_configure_alert from alert_agent.py: if a stored rule has the same
alert_id, replace it, else append the new rule; in both cases reply
success = true and commit the updated list.  There is no validation step. -/
def handleConfigureAlert (cfg : AlertConfig) (alerts : List AlertConfig) :
    ConfigureReply × List AlertConfig :=
  if alerts.any (fun r => r.alert_id = cfg.alert_id) then
    ({ success := true
       alert_id := some cfg.alert_id
       message := some "Alert updated successfully" },
     replaceFirstById cfg alerts)
  else
    ({ success := true
       alert_id := some cfg.alert_id
       message := some "Alert created successfully" },
     alerts ++ [cfg])

/-- GasPriceThresholds from sample-project-2-gas-fee-monitor/models.py. -/
structure GasPriceThresholds where
  low_threshold : ℚ
  medium_threshold : ℚ
  high_threshold : ℚ
  deriving DecidableEq

/-- The fields of SetThresholdsResponse from sample-project-2. -/
structure SetThresholdsReply where
  success : Bool
  message : String
  deriving DecidableEq

/-- handle_set_thresholds from sample-project-2 gas_monitor_agent.py: the
threshold-ordering validation.  A request violating low < medium < high is
rejected with success = false and a human-readable reason, returning before
the store write, so the stored thresholds are unchanged; otherwise the store
is updated and the reply is success = true. -/
def handleSetThresholds (t : GasPriceThresholds)
    (store : Option GasPriceThresholds) :
    SetThresholdsReply × Option GasPriceThresholds :=
  if t.low_threshold ≥ t.medium_threshold then
    ({ success := false
       message := "Low threshold must be less than medium threshold" }, store)
  else if t.medium_threshold ≥ t.high_threshold then
    ({ success := false
       message := "Medium threshold must be less than high threshold" }, store)
  else
    ({ success := true
       message := "Thresholds updated successfully" }, some t)

/-- The history append of handle_price_update / handle_price_response: append
the new point, then keep only the last 100 entries when the length exceeds
100. -/
def appendPricePoint (hist : List PricePoint) (p : PricePoint) : List PricePoint :=
  let h₂ := hist ++ [p]
  if h₂.length > 100 then pyLastSlice 100 h₂ else h₂

/-- The historical_data effect of handle_price_update from analysis_agent.py:
one symbol gets one point appended (with truncation); the other series are
untouched.  The storage dict is modelled as a total map with default []. -/
def handlePriceUpdateHistory (store : String → List PricePoint) (symbol : String)
    (p : PricePoint) : String → List PricePoint :=
  Function.update store symbol (appendPricePoint (store symbol) p)

/-- The historical_data effect of handle_price_response from
analysis_agent.py: the loop over msg.prices.items() appends one point per
received symbol. -/
def handlePriceResponseHistory (store : String → List PricePoint) :
    List (String × PricePoint) → (String → List PricePoint)
  | [] => store
  | (symbol, p) :: rest =>
      handlePriceResponseHistory (handlePriceUpdateHistory store symbol p) rest

/-- Iterated evaluation of one rule by check_indicator_alerts across a
sequence of (analysis result, timestamp) passes, threading the rule state
the way handle_analysis_result commits it between passes; returns all
notifications emitted by this rule and its final state. -/
def evalRuleSeq : AlertConfig → List (AnalysisResult × String) →
    List AlertNotification × AlertConfig
  | r, [] => ([], r)
  | r, (a, ts) :: rest =>
      ((checkIndicatorRule a ts r).1.toList ++
        (evalRuleSeq (checkIndicatorRule a ts r).2 rest).1,
       (evalRuleSeq (checkIndicatorRule a ts r).2 rest).2)

/-! Concrete sample data used by witness and counterexample theorems. -/

/-- A sample price point. -/
def samplePt : PricePoint :=
  { price := 1, timestamp := "t0", volume_24h := none, percent_change_24h := none }

/-- A second sample price point, distinguishable from samplePt. -/
def samplePt₂ : PricePoint :=
  { price := 2, timestamp := "t1", volume_24h := none, percent_change_24h := none }

/-- A sample notification for the delivery-queue witnesses. -/
def sampleNotif : AlertNotification :=
  { alert_id := "a1", symbol := "BTC", alert_type := AlertType.PRICE_ABOVE,
    triggered_value := 81000, threshold := 80000,
    message := priceAboveMessage "BTC" 80000 81000, timestamp := "t0" }

/-- The default BTC PRICE_ABOVE 80000 rule created at startup. -/
def btcAboveRule : AlertConfig :=
  AlertConfig.create "a1" "BTC" AlertType.PRICE_ABOVE 80000
    (some "Bitcoin price above $80,000")

/-- An RSI_OVERSOLD rule on BTC with threshold 30. -/
def oversoldRule30 : AlertConfig :=
  AlertConfig.create "r-oversold" "BTC" AlertType.RSI_OVERSOLD 30 none

/-- An analysis result for BTC whose rsi is exactly 0 (reachable: a price
series whose last window moves are all losses). -/
def rsiZeroAnalysis : AnalysisResult :=
  { symbol := "BTC", current_price := 100, timestamp := "t",
    moving_avg_short := none, moving_avg_long := none,
    rsi := some 0, macd := none, macd_signal := none,
    trend := TrendDirection.DOWN, signal := SignalType.SELL,
    signal_strength := SignalStrength.WEAK }

/-- An analysis result for BTC with rsi 10. -/
def rsiTenAnalysis : AnalysisResult :=
  { rsiZeroAnalysis with rsi := some 10 }

/-- A TREND_REVERSAL rule on BTC whose previous_trend is "down". -/
def reversalRule : AlertConfig :=
  { AlertConfig.create "r-rev" "BTC" AlertType.TREND_REVERSAL 0 none with
    additional_params := some [("previous_trend", "down")] }

/-- An analysis result for BTC with trend UP. -/
def upAnalysis : AnalysisResult :=
  { symbol := "BTC", current_price := 100, timestamp := "t",
    moving_avg_short := none, moving_avg_long := none,
    rsi := none, macd := none, macd_signal := none,
    trend := TrendDirection.UP, signal := SignalType.BUY,
    signal_strength := SignalStrength.WEAK }

/-- reversalRule after firing on upAnalysis. -/
def reversalRuleUpdated : AlertConfig :=
  { reversalRule with additional_params := some [("previous_trend", "up")] }

/-- The notification emitted by reversalRule on upAnalysis. -/
def reversalNotif : AlertNotification :=
  { alert_id := "r-rev", symbol := "BTC", alert_type := AlertType.TREND_REVERSAL,
    triggered_value := 0, threshold := 0,
    message := trendReversalMessage "BTC" "down" "up", timestamp := "t" }

/-- A freshly created TREND_REVERSAL rule (no additional_params). -/
def freshReversalRule : AlertConfig :=
  AlertConfig.create "r-rev9" "ETH" AlertType.TREND_REVERSAL 0 none

/-- An analysis result for ETH with trend DOWN. -/
def ethDownAnalysis : AnalysisResult :=
  { symbol := "ETH", current_price := 1500, timestamp := "t",
    moving_avg_short := none, moving_avg_long := none,
    rsi := some 40, macd := some 1, macd_signal := some 2,
    trend := TrendDirection.DOWN, signal := SignalType.SELL,
    signal_strength := SignalStrength.WEAK }

/-- A configuration that any plausible validation would reject (an
RSI_OVERSOLD threshold of 150 can never be crossed from inside the RSI
range [0, 100]). -/
def invalidRsiRule : AlertConfig :=
  AlertConfig.create "bad" "BTC" AlertType.RSI_OVERSOLD 150 none

/-- Gas thresholds violating the required ordering (low ≥ medium). -/
def badThresholds : GasPriceThresholds :=
  { low_threshold := 5, medium_threshold := 3, high_threshold := 10 }

/-- A stored gas-threshold configuration. -/
def storedThresholds : Option GasPriceThresholds :=
  some { low_threshold := 1, medium_threshold := 2, high_threshold := 3 }

/-- Fifteen strictly increasing prices ([1, ..., 15]), enough for the
default RSI window. -/
def fifteenPrices : List ℚ :=
  [1, 2, 3, 4, 5, 6, 7, 8, 9, 10, 11, 12, 13, 14, 15]

/-! Helper lemmas shared between the claim theorems. -/

/-- Elements of a Python tail slice are elements of the list. -/
theorem mem_pyLastSlice {α : Type} {x : α} {n : Nat} {l : List α}
    (h : x ∈ pyLastSlice n l) : x ∈ l := by
  unfold pyLastSlice at h
  split at h
  · exact h
  · exact List.mem_of_mem_drop h

/-- The mean of a list of nonnegative rationals is nonnegative. -/
theorem mean_nonneg {l : List ℚ} (h : ∀ x ∈ l, 0 ≤ x) : 0 ≤ mean l := by
  unfold mean
  exact div_nonneg (List.sum_nonneg h) (by positivity)

/-- The average gain of calculate_rsi is nonnegative. -/
theorem rsiAvgGain_nonneg (prices : List ℚ) (window : Nat) :
    0 ≤ rsiAvgGain prices window := by
  apply mean_nonneg
  intro x hx
  obtain ⟨d, _, rfl⟩ := List.mem_map.mp (mem_pyLastSlice hx)
  exact le_max_right d 0

/-- The average loss of calculate_rsi is nonnegative. -/
theorem rsiAvgLoss_nonneg (prices : List ℚ) (window : Nat) :
    0 ≤ rsiAvgLoss prices window := by
  apply mean_nonneg
  intro x hx
  obtain ⟨d, _, rfl⟩ := List.mem_map.mp (mem_pyLastSlice hx)
  exact le_max_right (-d) 0

/-- Setting a key in the association-list dict makes it readable back. -/
theorem assocGet_assocSet (k v : String) (l : List (String × String)) :
    assocGet k (assocSet k v l) = some v := by
  induction l with
  | nil => simp [assocSet, assocGet]
  | cons kv rest ih =>
      by_cases hk : kv.1 = k
      · simp [assocSet, assocGet, hk]
      · simp [assocSet, assocGet, hk, ih]

/-- After setPreviousTrend the stored previous_trend is the written value. -/
theorem previousTrendOf_setPreviousTrend (r : AlertConfig) (v : String) :
    previousTrendOf (setPreviousTrend r v) = some v := by
  unfold previousTrendOf setPreviousTrend
  simp [assocGet_assocSet]

/-- setPreviousTrend changes only additional_params. -/
theorem setPreviousTrend_fields (r : AlertConfig) (v : String) :
    (setPreviousTrend r v).symbol = r.symbol ∧
    (setPreviousTrend r v).active = r.active ∧
    (setPreviousTrend r v).alert_type = r.alert_type := by
  unfold setPreviousTrend
  exact ⟨rfl, rfl, rfl⟩

/-- An inserted configuration is in the store after replaceFirstById when
some stored rule has its alert_id. -/
theorem mem_replaceFirstById (cfg : AlertConfig) (alerts : List AlertConfig)
    (h : alerts.any (fun r => r.alert_id = cfg.alert_id) = true) :
    cfg ∈ replaceFirstById cfg alerts := by
  induction alerts with
  | nil => simp at h
  | cons r rest ih =>
      by_cases hr : r.alert_id = cfg.alert_id
      · simp [replaceFirstById, hr]
      · have hrest : rest.any (fun x => x.alert_id = cfg.alert_id) = true := by
          simpa [List.any_cons, hr] using h
        simp only [replaceFirstById, if_neg hr, List.mem_cons]
        exact Or.inr (ih hrest)

/-- A TREND_REVERSAL rule with no stored previous_trend never fires and is
left unchanged by one evaluation. -/
theorem checkIndicatorRule_trendrev_uninit (a : AnalysisResult) (ts : String)
    (r : AlertConfig) (htype : r.alert_type = AlertType.TREND_REVERSAL)
    (hprev : previousTrendOf r = none) :
    checkIndicatorRule a ts r = (none, r) := by
  unfold checkIndicatorRule
  split
  · rfl
  · rw [htype, hprev]

/-- A flush over a singleton queue whose every send fails: the entry is
retried with attempts+1 while that stays below 10, and dropped otherwise. -/
theorem flush_singleton_allfail (sendOk : String → AlertNotification → Bool)
    (subscribers : List String) (now : String) (a : AlertNotification)
    (hfail : ∀ u ∈ subscribers, sendOk u a = false) (hne : subscribers ≠ [])
    (k : Nat) (t : String) :
    sendPendingAlerts sendOk subscribers now [⟨a, k, t⟩] =
      if k + 1 < 10 then [⟨a, k + 1, now⟩] else [] := by
  have hBool : subscribers.all (fun u => sendOk u a) = false := by
    cases subscribers with
    | nil => exact absurd rfl hne
    | cons u us => simp [List.all_cons, hfail u (List.mem_cons_self u us)]
  have hSubsNE : subscribers.isEmpty = false := by
    cases subscribers with
    | nil => exact absurd rfl hne
    | cons u us => rfl
  unfold sendPendingAlerts
  rw [if_neg (by simp), if_neg (by simp [hSubsNE])]
  by_cases hk : k + 1 < 10
  · rw [if_pos hk]
    simp [List.filterMap_cons, flushEntry, hBool, hk]
  · rw [if_neg hk]
    simp [List.filterMap_cons, flushEntry, hBool, hk]

/-- For nonzero n the Python tail slice is List.drop. -/
theorem pyLastSlice_eq_drop {α : Type} (n : Nat) (hn : n ≠ 0) (l : List α) :
    pyLastSlice n l = l.drop (l.length - n) := by
  unfold pyLastSlice
  rw [if_neg hn]

/-- One history append never leaves more than 100 entries. -/
theorem appendPricePoint_length_le (hist : List PricePoint) (p : PricePoint) :
    (appendPricePoint hist p).length ≤ 100 := by
  show (if (hist ++ [p]).length > 100 then pyLastSlice 100 (hist ++ [p])
    else hist ++ [p]).length ≤ 100
  split
  · next h =>
      rw [pyLastSlice_eq_drop 100 (by norm_num), List.length_drop]
      omega
  · next h =>
      omega

/-- Appending to a full (100-entry) history drops exactly the oldest entry,
keeps the rest in order and puts the new point last. -/
theorem appendPricePoint_full (hist : List PricePoint) (p : PricePoint)
    (h : hist.length = 100) :
    appendPricePoint hist p = hist.drop 1 ++ [p] ∧
    (appendPricePoint hist p).getLast? = some p := by
  have hlen : (hist ++ [p]).length = 101 := by
    simp [h]
  have heq : appendPricePoint hist p = hist.drop 1 ++ [p] := by
    show (if (hist ++ [p]).length > 100 then pyLastSlice 100 (hist ++ [p])
      else hist ++ [p]) = hist.drop 1 ++ [p]
    rw [if_pos (by omega), pyLastSlice_eq_drop 100 (by norm_num), hlen,
      List.drop_append_eq_append_drop]
    simp [h]
  refine ⟨heq, ?_⟩
  rw [heq]
  exact List.getLast?_concat _

/-- The per-symbol history invariant is preserved by the response-handler
loop. -/
theorem respHistory_inv (store : String → List PricePoint)
    (updates : List (String × PricePoint))
    (hinv : ∀ s, (store s).length ≤ 100) :
    ∀ s, (handlePriceResponseHistory store updates s).length ≤ 100 := by
  induction updates generalizing store with
  | nil => exact hinv
  | cons u rest ih =>
      obtain ⟨sym, pt⟩ := u
      simp only [handlePriceResponseHistory]
      apply ih
      intro s₂
      unfold handlePriceUpdateHistory
      rw [Function.update_apply]
      split
      · exact appendPricePoint_length_le _ _
      · exact hinv s₂

/-- Iterating an all-failing flush over a singleton queue counts attempts up
one per flush (timestamps move to the flush time after the first failure). -/
theorem flush_iterate_allfail (sendOk : String → AlertNotification → Bool)
    (subscribers : List String) (now : String) (a : AlertNotification)
    (hfailA : ∀ u ∈ subscribers, sendOk u a = false) (hne : subscribers ≠ [])
    (t : String) :
    ∀ k, k ≤ 9 →
      (fun l => sendPendingAlerts sendOk subscribers now l)^[k] [⟨a, 0, t⟩] =
        [⟨a, k, if k = 0 then t else now⟩] := by
  intro k
  induction k with
  | zero =>
      intro _
      simp
  | succ m ih =>
      intro hk
      rw [Function.iterate_succ_apply', ih (by omega)]
      show sendPendingAlerts sendOk subscribers now _ = _
      rw [flush_singleton_allfail sendOk subscribers now a hfailA hne m _,
        if_pos (by omega)]
      simp

/-- A firing TREND_REVERSAL evaluation presupposes a matching active rule
and returns the rule with previous_trend set to the current trend. -/
theorem checkIndicatorRule_trendrev_fire (a : AnalysisResult) (ts : String)
    (r : AlertConfig) (n : AlertNotification) (r₂ : AlertConfig)
    (htype : r.alert_type = AlertType.TREND_REVERSAL)
    (hfire : checkIndicatorRule a ts r = (some n, r₂)) :
    r.symbol = a.symbol ∧ r.active = true ∧
    r₂ = setPreviousTrend r (trendValue a.trend) := by
  obtain ⟨id, sym, ty, th, act, desc, params⟩ := r
  simp only [AlertConfig.alert_type] at htype
  subst htype
  simp only [checkIndicatorRule] at hfire
  split at hfire
  · simp at hfire
  · next hguard =>
      push_neg at hguard
      obtain ⟨hs, ha⟩ := hguard
      refine ⟨hs, by simpa using ha, ?_⟩
      split at hfire
      · split at hfire
        · next hcond =>
            injection hfire with h₁ h₂
            exact h₂.symm
        · simp at hfire
      · simp at hfire

/-- A TREND_REVERSAL evaluation whose stored previous trend equals the
current trend does not fire and leaves the rule unchanged. -/
theorem checkIndicatorRule_trendrev_nofire (a : AnalysisResult) (ts : String)
    (r : AlertConfig) (htype : r.alert_type = AlertType.TREND_REVERSAL)
    (hsym : r.symbol = a.symbol) (hact : r.active = true) (p : String)
    (hprev : previousTrendOf r = some p) (hsame : p = trendValue a.trend) :
    checkIndicatorRule a ts r = (none, r) := by
  obtain ⟨id, sym, ty, th, act, desc, params⟩ := r
  simp only [AlertConfig.alert_type] at htype
  simp only [AlertConfig.symbol] at hsym
  simp only [AlertConfig.active] at hact
  subst htype
  subst hsym
  subst hact
  subst hsame
  simp [checkIndicatorRule, hprev]

/-! Claim theorems. -/

/-- C4: for a price sequence shorter than the required window the indicators
return their documented neutral fallbacks and, being total functions of
their input, propagate no error: calculate_rsi returns exactly 50.0 whenever
len(prices) < window+1, and calculate_macd returns exactly (0.0, 0.0)
whenever len(prices) < slow_window. -/
theorem indicator_insufficient_data_fallback (prices : List ℚ)
    (window fast slow sig : Nat)
    (h₁ : prices.length < window + 1) (h₂ : prices.length < slow) :
    calculate_rsi prices window = 50 ∧
    calculate_macd prices fast slow sig = (0, 0) := by
  constructor
  · unfold calculate_rsi
    rw [if_pos h₁]
  · unfold calculate_macd
    rw [if_pos h₂]

/-- C4 witness: a three-element price list is below both the default RSI
window (15) and the default MACD slow window (26). -/
theorem indicator_insufficient_data_fallback_witness :
    calculate_rsi [1, 2, 3] 14 = 50 ∧ calculate_macd [1, 2, 3] 12 26 9 = (0, 0) :=
  indicator_insufficient_data_fallback [1, 2, 3] 14 12 26 9 (by decide) (by decide)

/-- C10: with an empty subscriber set, send_pending_alerts returns with the
pending queue untouched (no attempts increment, no last_attempt update, no
delivery and no drop), and therefore any number of such flushes leaves every
pending entry in place. -/
theorem no_subscribers_flush_frame (sendOk : String → AlertNotification → Bool)
    (now : String) (pending : List PendingEntry) (n : Nat) :
    sendPendingAlerts sendOk [] now pending = pending ∧
    (fun l => sendPendingAlerts sendOk [] now l)^[n] pending = pending := by
  have h : ∀ l : List PendingEntry, sendPendingAlerts sendOk [] now l = l := by
    intro l
    unfold sendPendingAlerts
    split
    · rfl
    · simp
  exact ⟨h pending, Function.iterate_fixed (h pending) n⟩

/-- C7: an active PRICE_ABOVE rule with matching symbol fires exactly when
the price is strictly greater than its threshold, an active matching
PRICE_BELOW rule exactly when the price is strictly less; at price equal to
the threshold neither fires and no notification is produced. -/
theorem price_rule_strict_threshold (symbol : String) (price : ℚ) (ts : String)
    (r : AlertConfig) (hsym : r.symbol = symbol) (hact : r.active = true) :
    (r.alert_type = AlertType.PRICE_ABOVE →
      ((checkPriceRule symbol price ts r).isSome ↔ price > r.threshold)) ∧
    (r.alert_type = AlertType.PRICE_BELOW →
      ((checkPriceRule symbol price ts r).isSome ↔ price < r.threshold)) ∧
    (price = r.threshold → checkPriceRule symbol price ts r = none) := by
  have hguard : ¬(r.symbol ≠ symbol ∨ r.active = false) := by
    simp [hsym, hact]
  refine ⟨?_, ?_, ?_⟩
  · intro htype
    unfold checkPriceRule
    rw [if_neg hguard]
    by_cases hc : price > r.threshold
    · simp [htype, hc]
    · simp [htype, hc]
  · intro htype
    unfold checkPriceRule
    rw [if_neg hguard]
    by_cases hc : price < r.threshold
    · simp [htype, hc]
    · simp [htype, hc]
  · intro heq
    unfold checkPriceRule
    rw [if_neg hguard]
    rw [if_neg (by simp [heq]), if_neg (by simp [heq])]

/-- C7 witness: the default BTC PRICE_ABOVE 80000 rule fires at 81000 and
produces nothing at exactly 80000. -/
theorem price_rule_strict_threshold_witness :
    ((checkPriceRule "BTC" 81000 "t" btcAboveRule).isSome ↔
      (81000 : ℚ) > btcAboveRule.threshold) ∧
    checkPriceRule "BTC" 80000 "t" btcAboveRule = none :=
  ⟨(price_rule_strict_threshold "BTC" 81000 "t" btcAboveRule rfl rfl).1 rfl,
   (price_rule_strict_threshold "BTC" 80000 "t" btcAboveRule rfl rfl).2.2 (by decide)⟩

/-- C6 counterexample: the claim predicates success=false and an unchanged
store on a validation-failing configuration request, but handle_configure_alert
contains no validation: the request carrying invalidRsiRule (an RSI_OVERSOLD
threshold of 150, unreachable from the RSI range [0,100] and rejected by any
plausible validation) is answered success=true and the rule is inserted into
the store. -/
theorem configure_alert_no_validation_counterexample :
    (handleConfigureAlert invalidRsiRule []).1.success = true ∧
    (handleConfigureAlert invalidRsiRule []).2 = [invalidRsiRule] :=
  ⟨rfl, rfl⟩

/-- C6 amended: handle_configure_alert performs no validation — every
configuration request is replied success=true and committed (the config
replaces the stored rule with matching alert_id, else is appended).  The
spec-described rejection behavior lives in the gas monitor agent's
handle_set_thresholds: a thresholds request violating the ordering
low < medium < high is rejected synchronously with success=false and a
human-readable reason, and the stored thresholds are left unchanged. -/
theorem configure_accepts_all_and_threshold_ordering_rejected
    (cfg : AlertConfig) (alerts : List AlertConfig)
    (t : GasPriceThresholds) (store : Option GasPriceThresholds)
    (hbad : t.low_threshold ≥ t.medium_threshold ∨
      t.medium_threshold ≥ t.high_threshold) :
    (handleConfigureAlert cfg alerts).1.success = true ∧
    cfg ∈ (handleConfigureAlert cfg alerts).2 ∧
    (handleSetThresholds t store).1.success = false ∧
    (handleSetThresholds t store).2 = store := by
  refine ⟨?_, ?_, ?_, ?_⟩
  · unfold handleConfigureAlert
    split <;> rfl
  · unfold handleConfigureAlert
    split
    · next h => exact mem_replaceFirstById cfg alerts h
    · simp
  · unfold handleSetThresholds
    by_cases h₁ : t.low_threshold ≥ t.medium_threshold
    · rw [if_pos h₁]
    · rw [if_neg h₁, if_pos (hbad.resolve_left h₁)]
  · unfold handleSetThresholds
    by_cases h₁ : t.low_threshold ≥ t.medium_threshold
    · rw [if_pos h₁]
    · rw [if_neg h₁, if_pos (hbad.resolve_left h₁)]

/-- C6 witness: a fresh rule is accepted into an empty store, and the
mis-ordered thresholds (low 5 ≥ medium 3) are rejected with the stored
thresholds unchanged. -/
theorem configure_accepts_all_and_threshold_ordering_rejected_witness :
    (handleConfigureAlert invalidRsiRule []).1.success = true ∧
    invalidRsiRule ∈ (handleConfigureAlert invalidRsiRule []).2 ∧
    (handleSetThresholds badThresholds storedThresholds).1.success = false ∧
    (handleSetThresholds badThresholds storedThresholds).2 = storedThresholds :=
  configure_accepts_all_and_threshold_ordering_rejected invalidRsiRule []
    badThresholds storedThresholds (Or.inl (by norm_num [badThresholds]))

/-- C2: after every price-update (and price-response) handler execution each
stored history has length at most 100; appending to a full 100-entry history
evicts exactly the oldest entry (FIFO), keeps the retained entries in their
arrival order, and puts the new point last. -/
theorem history_bounded_fifo (store : String → List PricePoint)
    (symbol : String) (p : PricePoint) (updates : List (String × PricePoint))
    (hist : List PricePoint) :
    (appendPricePoint hist p).length ≤ 100 ∧
    (hist.length = 100 →
      appendPricePoint hist p = hist.drop 1 ++ [p] ∧
      (appendPricePoint hist p).getLast? = some p) ∧
    ((∀ s, (store s).length ≤ 100) →
      ∀ s, (handlePriceUpdateHistory store symbol p s).length ≤ 100) ∧
    ((∀ s, (store s).length ≤ 100) →
      ∀ s, (handlePriceResponseHistory store updates s).length ≤ 100) := by
  refine ⟨appendPricePoint_length_le hist p, appendPricePoint_full hist p, ?_, ?_⟩
  · intro hinv s
    unfold handlePriceUpdateHistory
    rw [Function.update_apply]
    split
    · exact appendPricePoint_length_le _ _
    · exact hinv s
  · intro hinv
    exact respHistory_inv store updates hinv

/-- C2 witness: appending a 101st point to a full history of 100 equal
points keeps the length at 100 and drops the head in favor of the new last
element. -/
theorem history_bounded_fifo_witness :
    (appendPricePoint (List.replicate 100 samplePt) samplePt₂).length ≤ 100 ∧
    appendPricePoint (List.replicate 100 samplePt) samplePt₂ =
      (List.replicate 100 samplePt).drop 1 ++ [samplePt₂] ∧
    (appendPricePoint (List.replicate 100 samplePt) samplePt₂).getLast? =
      some samplePt₂ := by
  have h := history_bounded_fifo (fun _ => []) "BTC" samplePt₂ []
    (List.replicate 100 samplePt)
  exact ⟨h.1, (h.2.1 (by simp)).1, (h.2.1 (by simp)).2⟩

/-- C1: in a flush in which at least one send of an entry fails, that entry
is retried with attempts incremented by one (and last_attempt set to the
flush time) exactly while the incremented value stays strictly below 10 and
dropped when it reaches 10; an entry every one of whose sends succeeds is
removed in that flush; every entry surviving a flush with a nonempty
subscriber set has attempts < 10; starting from attempts = 0, nine failed
flushes leave the entry queued with attempts = 9 and the tenth removes it. -/
theorem pending_retry_drop_semantics
    (sendOk : String → AlertNotification → Bool) (subscribers : List String)
    (now : String) (e : PendingEntry)
    (hfail : subscribers.all (fun u => sendOk u e.alert) = false) :
    (flushEntry sendOk subscribers now e =
      if e.attempts + 1 < 10 then
        some { e with attempts := e.attempts + 1, last_attempt := now }
      else none) ∧
    (∀ e₂ : PendingEntry, subscribers.all (fun u => sendOk u e₂.alert) = true →
      flushEntry sendOk subscribers now e₂ = none) ∧
    (∀ pending : List PendingEntry,
      ∀ e₂ ∈ sendPendingAlerts sendOk subscribers now pending,
      subscribers ≠ [] → e₂.attempts < 10) ∧
    (∀ (a : AlertNotification) (t : String),
      (∀ u ∈ subscribers, sendOk u a = false) → subscribers ≠ [] →
      (fun l => sendPendingAlerts sendOk subscribers now l)^[9] [⟨a, 0, t⟩] =
        [⟨a, 9, now⟩] ∧
      (fun l => sendPendingAlerts sendOk subscribers now l)^[10] [⟨a, 0, t⟩] =
        []) := by
  refine ⟨?_, ?_, ?_, ?_⟩
  · unfold flushEntry
    rw [if_neg (by simp [hfail])]
  · intro e₂ hok
    unfold flushEntry
    rw [if_pos hok]
  · intro pending e₂ hmem hne
    unfold sendPendingAlerts at hmem
    split at hmem
    · next hp =>
        rw [List.isEmpty_iff.mp hp] at hmem
        simp at hmem
    · split at hmem
      · next hs =>
          exact absurd (List.isEmpty_iff.mp hs) hne
      · obtain ⟨e₁, _, hsome⟩ := List.mem_filterMap.mp hmem
        unfold flushEntry at hsome
        split at hsome
        · exact absurd hsome (by simp)
        · split at hsome
          · next hk =>
              obtain rfl := Option.some_injective _ hsome
              exact hk
          · exact absurd hsome (by simp)
  · intro a t hfailA hne
    have h9 := flush_iterate_allfail sendOk subscribers now a hfailA hne t 9
      (by norm_num)
    simp only [if_neg (by norm_num : (9 : Nat) ≠ 0)] at h9
    refine ⟨h9, ?_⟩
    rw [show (10 : Nat) = 9 + 1 from rfl, Function.iterate_succ_apply', h9]
    show sendPendingAlerts sendOk subscribers now _ = _
    rw [flush_singleton_allfail sendOk subscribers now a hfailA hne 9 now,
      if_neg (by norm_num)]

/-- C1 witness: with one subscriber whose sends always fail, the first flush
retries the entry with attempts = 1; the tenth flush leaves the queue
empty. -/
theorem pending_retry_drop_semantics_witness :
    flushEntry (fun _ _ => false) ["user1"] "t1" ⟨sampleNotif, 0, "t0"⟩ =
      some ⟨sampleNotif, 1, "t1"⟩ ∧
    (fun l => sendPendingAlerts (fun _ _ => false) ["user1"] "t1" l)^[10]
      [⟨sampleNotif, 0, "t0"⟩] = [] := by
  have h := pending_retry_drop_semantics (fun _ _ => false) ["user1"] "t1"
    ⟨sampleNotif, 0, "t0"⟩ (by rfl)
  refine ⟨?_, (h.2.2.2 sampleNotif "t0" (by intro u _; rfl) (by simp)).2⟩
  rw [h.1]
  rfl

/-- C3: a pass in which an active TREND_REVERSAL rule fires stores the
current trend in its previous_trend parameter; the handler commits the
updated rule list in the same pass (unconditionally); hence an immediately
following evaluation with an unchanged trend does not fire the rule again
and leaves it unchanged. -/
theorem trend_reversal_no_double_fire
    (a a₂ : AnalysisResult) (ts ts₂ : String) (r r₂ : AlertConfig)
    (n : AlertNotification)
    (hfire : checkIndicatorRule a ts r = (some n, r₂))
    (htype : r.alert_type = AlertType.TREND_REVERSAL)
    (hsym : a₂.symbol = a.symbol) (htr : a₂.trend = a.trend) :
    previousTrendOf r₂ = some (trendValue a.trend) ∧
    checkIndicatorRule a₂ ts₂ r₂ = (none, r₂) ∧
    (∀ (sendOk : String → AlertNotification → Bool) (now : String)
      (a₃ : AnalysisResult) (st : AlertAgentState),
      (handleAnalysisResult sendOk now a₃ st).alerts =
        (checkIndicatorAlerts a₃ now st.alerts).2) := by
  obtain ⟨hs, ha, hr₂⟩ := checkIndicatorRule_trendrev_fire a ts r n r₂ htype hfire
  have hty₂ : r₂.alert_type = AlertType.TREND_REVERSAL := by
    rw [hr₂]
    simpa [setPreviousTrend] using htype
  have hprev₂ : previousTrendOf r₂ = some (trendValue a.trend) := by
    rw [hr₂]
    exact previousTrendOf_setPreviousTrend r _
  have hsym₂ : r₂.symbol = a₂.symbol := by
    rw [hr₂]
    simpa [setPreviousTrend, hsym] using hs
  have hact₂ : r₂.active = true := by
    rw [hr₂]
    simpa [setPreviousTrend] using ha
  refine ⟨hprev₂, ?_, ?_⟩
  · exact checkIndicatorRule_trendrev_nofire a₂ ts₂ r₂ hty₂ hsym₂ hact₂
      (trendValue a.trend) hprev₂ (by rw [htr])
  · intro sendOk now a₃ st
    rfl

/-- C3 witness: a BTC TREND_REVERSAL rule remembering trend "down" fires on
an UP analysis; the returned rule stores "up", and re-evaluating it under an
unchanged UP trend fires nothing and changes nothing. -/
theorem trend_reversal_no_double_fire_witness :
    previousTrendOf reversalRuleUpdated = some "up" ∧
    checkIndicatorRule upAnalysis "t2" reversalRuleUpdated =
      (none, reversalRuleUpdated) := by
  have h := trend_reversal_no_double_fire upAnalysis upAnalysis "t" "t2"
    reversalRule reversalRuleUpdated reversalNotif (by rfl) rfl rfl rfl
  exact ⟨h.1, h.2.1⟩

/-- C5 counterexample: the claim (an active matching RSI_OVERSOLD rule emits
a notification iff rsi < threshold, for every rsi in [0, 100] including 0)
fails at rsi = 0: with threshold 30 and rsi exactly 0 the truthiness test on
the rsi field makes the rule emit nothing although 0 < 30. -/
theorem rsi_zero_oversold_counterexample :
    ¬ (((checkIndicatorRule rsiZeroAnalysis "t" oversoldRule30).1.isSome = true) ↔
      ((0 : ℚ) < 30)) := by decide

/-- C5 amended: for an active RSI_OVERSOLD (resp. RSI_OVERBOUGHT) rule with
matching symbol, a notification is emitted iff the rsi field is present and
nonzero (Python truthiness of the Optional float) and rsi < threshold
(resp. rsi > threshold); in particular the claimed equivalence holds for
every rsi in (0, 100] but not at rsi = 0, where nothing is emitted. -/
theorem rsi_rule_firing_truthiness (a : AnalysisResult) (ts : String)
    (r : AlertConfig) (hsym : r.symbol = a.symbol) (hact : r.active = true) :
    (r.alert_type = AlertType.RSI_OVERBOUGHT →
      ((checkIndicatorRule a ts r).1.isSome = true ↔
        ∃ x, a.rsi = some x ∧ x ≠ 0 ∧ x > r.threshold)) ∧
    (r.alert_type = AlertType.RSI_OVERSOLD →
      ((checkIndicatorRule a ts r).1.isSome = true ↔
        ∃ x, a.rsi = some x ∧ x ≠ 0 ∧ x < r.threshold)) := by
  have hguard : ¬(r.symbol ≠ a.symbol ∨ r.active = false) := by
    simp [hsym, hact]
  constructor
  · intro htype
    cases hrsi : a.rsi with
    | none =>
        unfold checkIndicatorRule
        rw [if_neg hguard, htype, hrsi]
        simp
    | some x =>
        unfold checkIndicatorRule
        rw [if_neg hguard, htype, hrsi]
        by_cases hc : x ≠ 0 ∧ x > r.threshold
        · simp [hc]
        · simp [hc]
  · intro htype
    cases hrsi : a.rsi with
    | none =>
        unfold checkIndicatorRule
        rw [if_neg hguard, htype, hrsi]
        simp
    | some x =>
        unfold checkIndicatorRule
        rw [if_neg hguard, htype, hrsi]
        by_cases hc : x ≠ 0 ∧ x < r.threshold
        · simp [hc]
        · simp [hc]

/-- C5 witness: an rsi of 10 against the oversold threshold 30 realizes the
amended equivalence with its hypotheses discharged. -/
theorem rsi_rule_firing_truthiness_witness :
    (checkIndicatorRule rsiTenAnalysis "t" oversoldRule30).1.isSome = true ↔
      ∃ x, rsiTenAnalysis.rsi = some x ∧ x ≠ 0 ∧ x < oversoldRule30.threshold :=
  (rsi_rule_firing_truthiness rsiTenAnalysis "t" oversoldRule30 rfl rfl).2 rfl

/-- C8: with at least window+1 prices, calculate_rsi stays within [0, 100];
it is exactly 100 when the average loss is zero and otherwise equals
100 - 100/(1 + avg gain / avg loss). -/
theorem rsi_within_bounds (prices : List ℚ) (window : Nat)
    (_hw : 1 ≤ window) (hlen : window + 1 ≤ prices.length) :
    (0 ≤ calculate_rsi prices window ∧ calculate_rsi prices window ≤ 100) ∧
    (rsiAvgLoss prices window = 0 → calculate_rsi prices window = 100) ∧
    (rsiAvgLoss prices window ≠ 0 →
      calculate_rsi prices window =
        100 - 100 / (1 + rsiAvgGain prices window / rsiAvgLoss prices window)) := by
  have hns : ¬ prices.length < window + 1 := not_lt.mpr hlen
  have hg := rsiAvgGain_nonneg prices window
  have hl := rsiAvgLoss_nonneg prices window
  by_cases h0 : rsiAvgLoss prices window = 0
  · have hv : calculate_rsi prices window = 100 := by
      unfold calculate_rsi
      rw [if_neg hns, if_pos h0]
    exact ⟨⟨by rw [hv]; norm_num, by rw [hv]⟩, fun _ => hv,
      fun hne => absurd h0 hne⟩
  · have hv : calculate_rsi prices window =
        100 - 100 / (1 + rsiAvgGain prices window / rsiAvgLoss prices window) := by
      unfold calculate_rsi
      rw [if_neg hns, if_neg h0]
    have hrs : 0 ≤ rsiAvgGain prices window / rsiAvgLoss prices window :=
      div_nonneg hg hl
    have hdpos : 0 < (100 : ℚ) /
        (1 + rsiAvgGain prices window / rsiAvgLoss prices window) :=
      div_pos (by norm_num) (by linarith)
    have hdle : (100 : ℚ) /
        (1 + rsiAvgGain prices window / rsiAvgLoss prices window) ≤ 100 :=
      div_le_self (by norm_num) (by linarith)
    exact ⟨⟨by rw [hv]; linarith, by rw [hv]; linarith⟩,
      fun h => absurd h h0, fun _ => hv⟩

/-- C8 witness: fifteen monotonically increasing prices meet the default
window requirement and yield an RSI inside [0, 100]. -/
theorem rsi_within_bounds_witness :
    0 ≤ calculate_rsi fifteenPrices 14 ∧ calculate_rsi fifteenPrices 14 ≤ 100 :=
  (rsi_within_bounds fifteenPrices 14 (by norm_num) (by decide)).1

/-- C9: a TREND_REVERSAL rule whose additional_params carries no
previous_trend key — the state of every rule made by AlertConfig.create —
never fires under any sequence of evaluation passes, and no pass ever
initializes previous_trend for it: the rule emits no notification and is
returned unchanged. -/
theorem trend_reversal_uninitialized_inert (r : AlertConfig)
    (htype : r.alert_type = AlertType.TREND_REVERSAL)
    (hprev : previousTrendOf r = none) :
    (∀ seq : List (AnalysisResult × String), evalRuleSeq r seq = ([], r)) ∧
    (∀ (id symbol : String) (threshold : ℚ) (description : Option String),
      previousTrendOf
        (AlertConfig.create id symbol AlertType.TREND_REVERSAL threshold
          description) = none) := by
  constructor
  · intro seq
    induction seq with
    | nil => rfl
    | cons u rest ih =>
        obtain ⟨a, ts⟩ := u
        simp only [evalRuleSeq]
        rw [checkIndicatorRule_trendrev_uninit a ts r htype hprev]
        simp [ih]
  · intro id symbol threshold description
    rfl

/-- C9 witness: a freshly created ETH TREND_REVERSAL rule stays silent and
unchanged across a DOWN pass followed by an UP pass. -/
theorem trend_reversal_uninitialized_inert_witness :
    evalRuleSeq freshReversalRule [(ethDownAnalysis, "t"), (upAnalysis, "t2")] =
      ([], freshReversalRule) :=
  (trend_reversal_uninitialized_inert freshReversalRule rfl rfl).1 _

end PriceMonitor
